import Mathlib

/-!
Verification of the NPI (Non-Permissible Income) report generator.

The program reads a pipe-delimited deal text file and a spreadsheet-based
dividends-receivable report, joins them on a security identifier, computes
NPI Base = purification ratio x accrued income per Details row, and inserts
a Total NPI row into the Summary block.

The embedding below follows src/streamlit_app.py.  Machine floats are
modelled by exact rationals; pandas DataFrames by lists of rows; spreadsheet
cells by an inductive type with a missing-value constructor standing for NaN.
String operations are implemented structurally over lists of characters so
that they evaluate inside the kernel.
-/

set_option maxRecDepth 20000

namespace NPI

/-- Splitting a character list at every occurrence of a separator character,
keeping empty segments; models Python str.split with a one-character
separator. -/
def splitOnChar (c : Char) : List Char → List (List Char)
  | [] => [[]]
  | a :: t =>
    let r := splitOnChar c t
    if a = c then [] :: r
    else match r with
      | [] => [[a]]
      | h :: t2 => (a :: h) :: t2

/-- Removing leading and trailing whitespace; models Python str.strip. -/
def trimChars (l : List Char) : List Char :=
  ((l.dropWhile Char.isWhitespace).reverse.dropWhile Char.isWhitespace).reverse

/-- Python str.strip on a string value. -/
def pyStrip (s : String) : String := (trimChars s.toList).asString

/-- Value of a list of decimal digit characters. -/
def digitsToNat (l : List Char) : Nat := l.foldl (fun n c => n * 10 + (c.toNat - 48)) 0

/-- Hard-coded deal-file schema of src/streamlit_app.py lines 46-58. -/
def columns : List String :=
  ["calc_date", "msci_index_code", "msci_dividend_code", "xd_date",
   "reinvestment_in_index_date", "dividend_description", "msci_security_code",
   "msci_timeseries_code", "msci_issuer_code", "security_name", "bb_ticker",
   "dividend_ISO_currency_symbol", "unadjusted_dividend_amount",
   "dividend_sub_unit", "dividend_adjustment_factor",
   "adjusted_grs_dividend_amount", "withholding_tax_rate",
   "adj_net_dividend_amount_int", "adj_net_dividend_amount_dom",
   "purified_dividend_adjust_fact", "purified_adj_grs_div_amount",
   "purified_adj_net_div_amnt_int", "purified_adj_net_div_amnt_dom",
   "gross_amount_to_purify", "net_intl_amount_to_purify",
   "net_domestic_amount_to_purify", "isin", "reserved_1", "reserved_2",
   "reserved_3", "reserved_4", "reserved_5", "reserved_6", "reserved_7",
   "reserved_8", "reserved_9", "reserved_10", "reserved_11", "reserved_12",
   "reserved_13", "reserved_14", "reserved_15", "reserved_16", "reserved_17",
   "reserved_18", "reserved_19"]

/-- Position of a named column in the deal schema. -/
def colPos (name : String) : Nat := columns.findIdx (· == name)

def xdIdx : Nat := colPos "xd_date"

def ndapIdx : Nat := colPos "net_domestic_amount_to_purify"

def isinIdx : Nat := colPos "isin"

/-- Field of a parsed deal row at a column position. -/
def fieldAt (r : List String) (i : Nat) : String := r.getD i ""

def isinOf (r : List String) : String := fieldAt r isinIdx

def ndapOf (r : List String) : String := fieldAt r ndapIdx

def xdOf (r : List String) : String := fieldAt r xdIdx

/-- Splitting one pipe-delimited deal line, line.split with pipe then
dropping the first and last (empty) pieces and stripping each field
(src/streamlit_app.py line 43). -/
def splitPipeLine (s : String) : List String :=
  (((splitOnChar '|' s.toList).drop 1).dropLast).map (fun f => (trimChars f).asString)

/-- Deal-file row extraction of src/streamlit_app.py lines 40-44: every line
beginning with a pipe character contributes one row of stripped fields. -/
def parseDealLines (lines : List String) : List (List String) :=
  lines.filterMap fun l =>
    match l.toList with
    | '|' :: _ => some (splitPipeLine l)
    | _ => none

def isLeapYear (y : Nat) : Bool := (y % 4 == 0 && y % 100 != 0) || y % 400 == 0

def daysInMonth (y m : Nat) : Nat :=
  if m = 2 then (if isLeapYear y then 29 else 28)
  else if m = 4 ∨ m = 6 ∨ m = 9 ∨ m = 11 then 30 else 31

/-- Model of pandas to_datetime with format YYYYMMDD and coercing errors
(src/streamlit_app.py line 62): eight digit characters making up a valid
calendar date yield the date, everything else yields a missing value.  A
date is represented by its yyyymmdd numeral, whose numeric order agrees
with chronological order. -/
def parseYYYYMMDD (s : String) : Option Nat :=
  let l := s.toList
  if l.length = 8 ∧ l.all Char.isDigit then
    let n := digitsToNat l
    let m := n / 100 % 100
    let d := n % 100
    if 1 ≤ m ∧ m ≤ 12 ∧ 1 ≤ d ∧ d ≤ daysInMonth (n / 10000) m then some n else none
  else none

/-- Temporal filter of src/streamlit_app.py line 65: keep the deal rows whose
ex-dividend date parses and is on or before the calculation date.  A row
with an unparsable date compares as NaT, which is never less-or-equal, so
the row is dropped. -/
def temporalFilter (rows : List (List String)) (asOf : Nat) : List (List String) :=
  rows.filter fun r =>
    match parseYYYYMMDD (xdOf r) with
    | some d => decide (d ≤ asOf)
    | none => false

/-- Unsigned decimal-literal part of the numeric coercion model: digits with
an optional fractional part. -/
def parseUnsignedRat (l : List Char) : Option ℚ :=
  match splitOnChar '.' l with
  | [ip] => if !ip.isEmpty && ip.all Char.isDigit then some (digitsToNat ip) else none
  | [ip, fp] =>
    if (!ip.isEmpty || !fp.isEmpty) && ip.all Char.isDigit && fp.all Char.isDigit then
      some ((digitsToNat ip : ℚ) + (digitsToNat fp : ℚ) / (10 ^ fp.length : ℚ))
    else none
  | _ => none

/-- Model of pandas to_numeric with coercing errors on a plain decimal
string: optional sign, digits, optional fractional digits; anything else
becomes a missing value.  Exponent notation is not modelled since no claim
exercises it. -/
def parseRat (s : String) : Option ℚ :=
  match trimChars s.toList with
  | '-' :: rest => (parseUnsignedRat rest).map (fun q => -q)
  | '+' :: rest => parseUnsignedRat rest
  | l => parseUnsignedRat l

/-- Spreadsheet cell as produced by pandas read_excel with no header: a
string, a number, or a missing value (NaN). -/
inductive Cell where
  | str (s : String)
  | num (q : ℚ)
  | empty
deriving DecidableEq

/-- Python str applied to a cell, as in astype at src/streamlit_app.py
line 83; only the string case is exercised by the claims. -/
def cellToString : Cell → String
  | .str s => s
  | .num q => toString q
  | .empty => "nan"

/-- First cell of a report row, column 0. -/
def cell0 (r : List Cell) : Cell := r.getD 0 Cell.empty

/-- First index of a list element satisfying a predicate; models the pandas
idiom of filtering a frame and taking index zero of the result. -/
def findFirst {α : Type} (p : α → Bool) : List α → Option Nat
  | [] => none
  | a :: t => if p a then some 0 else (findFirst p t).map (· + 1)

def detailsMarker : String := "DIVIDENDS RECIEVABLE DEATAILS"

structure SplitReport where
  summary : List (List Cell)
  header : List Cell
  details : List (List Cell)
deriving DecidableEq

/-- Report split of src/streamlit_app.py lines 74-80: the row whose first
cell equals the details marker starts the details section; the header row is
two rows below it; the summary is everything before the header row and the
details data start immediately below the header.  A report without the
marker raises IndexError, caught by the blanket handler. -/
def splitReport (report : List (List Cell)) : Option SplitReport :=
  match findFirst (fun r => decide (cell0 r = Cell.str detailsMarker)) report with
  | none => none
  | some i => some ⟨report.take (i + 2), report.getD (i + 2) [], report.drop (i + 3)⟩

/-- Index of the details column carrying a given header label. -/
def colIdx (header : List Cell) (name : String) : Option Nat :=
  findFirst (fun c => decide (c = Cell.str name)) header

/-- Join key of a details row: the Security Sedol cell rendered as a string
(src/streamlit_app.py line 83). -/
def keyOf (si : Nat) (row : List Cell) : String := cellToString (row.getD si Cell.empty)

/-- Deal rows whose isin equals the join key of a details row. -/
def matchesFor (si : Nat) (deals : List (List String)) (row : List Cell) : List (List String) :=
  deals.filter (fun d => isinOf d == keyOf si row)

structure MergedRow where
  row : List Cell
  deal : Option (List String)
deriving DecidableEq

/-- Output rows contributed by one details row in the left merge: one row
per matching deal row, in deal-file order, or a single row with a missing
deal side when nothing matches. -/
def joinRow (si : Nat) (deals : List (List String)) (row : List Cell) : List MergedRow :=
  match matchesFor si deals row with
  | [] => [⟨row, none⟩]
  | ms => ms.map (fun d => ⟨row, some d⟩)

/-- Left merge of src/streamlit_app.py line 104: every details row is kept in
order and contributes its joinRow block. -/
def leftJoin (si : Nat) (deals : List (List String)) : List (List Cell) → List MergedRow
  | [] => []
  | row :: rest => joinRow si deals row ++ leftJoin si deals rest

/-- Enriched details row.  The accrued field is the coerced value that
overwrites the Accured Income Net (Base) column at src/streamlit_app.py
line 111; it is never filled with zero.  The ndap and npiBase fields carry
the fillna defaults of lines 115-116. -/
structure EnrichedRow where
  row : List Cell
  deal : Option (List String)
  accrued : Option ℚ
  ndap : ℚ
  npiBase : ℚ
deriving DecidableEq

/-- Product with missing-propagates-to-missing semantics, as NaN arithmetic
at src/streamlit_app.py line 112. -/
def npiRaw : Option ℚ → Option ℚ → Option ℚ
  | some a, some b => some (a * b)
  | _, _ => none

/-- Coercion of the merged purification-ratio column (src/streamlit_app.py
line 110): empty strings are first replaced by NaN, then to_numeric with
coercing errors is applied; an unmatched row is already NaN. -/
def coerceNdap : Option String → Option ℚ
  | none => none
  | some s => if s == "" then none else parseRat s

/-- Coercion of the accrued-income cell (src/streamlit_app.py line 111). -/
def coerceCell : Cell → Option ℚ
  | .str s => parseRat s
  | .num q => some q
  | .empty => none

/-- Enrichment of one merged row: coerce both multiplicands, multiply with
missing propagation, then fill the ratio and the product with zero
(src/streamlit_app.py lines 110-116).  The accrued field is not filled. -/
def enrichRow (ai : Nat) (m : MergedRow) : EnrichedRow :=
  let nd := coerceNdap (m.deal.map ndapOf)
  let ac := coerceCell (m.row.getD ai Cell.empty)
  ⟨m.row, m.deal, ac, nd.getD 0, (npiRaw nd ac).getD 0⟩

def enrichDetails (si ai : Nat) (deals : List (List String))
    (details : List (List Cell)) : List EnrichedRow :=
  (leftJoin si deals details).map (enrichRow ai)

/-- Grand total of the NPI Base column (src/streamlit_app.py line 118). -/
def npiTotal (l : List EnrichedRow) : ℚ := (l.map (·.npiBase)).sum

/-- Injected summary row (src/streamlit_app.py lines 122-126): first cell
Total NPI, cell 3 the grand total, other cells missing. -/
def totalRow (t : ℚ) : List Cell := [Cell.str "Total NPI", Cell.empty, Cell.empty, Cell.num t]

/-- Index of the summary anchor: the first row whose first cell is the
literal string Total (src/streamlit_app.py line 121). -/
def totalAnchor (summary : List (List Cell)) : Option Nat :=
  findFirst (fun r => decide (cell0 r = Cell.str "Total")) summary

/-- Total injection of src/streamlit_app.py line 128: the new row is
concatenated directly after the anchor row; with no anchor the positional
lookup raises, caught by the blanket handler. -/
def injectTotal (summary : List (List Cell)) (t : ℚ) : Option (List (List Cell)) :=
  match totalAnchor summary with
  | none => none
  | some i => some (summary.take (i + 1) ++ totalRow t :: summary.drop (i + 1))

/-- Distinct Security Sedol values of the details block
(src/streamlit_app.py line 87). -/
def excelSecurities (si : Nat) (details : List (List Cell)) : Finset String :=
  (details.map (keyOf si)).toFinset

/-- Distinct isin values of the filtered deal file (src/streamlit_app.py
line 88). -/
def dealSecurities (deals : List (List String)) : Finset String :=
  (deals.map isinOf).toFinset

/-- Coverage check of src/streamlit_app.py lines 90-94: when the two sets of
distinct identifiers differ in size, the one-sided set differences are
reported; the run is never stopped by this check. -/
def coverageWarning (excel deal : Finset String) : Option (Finset String × Finset String) :=
  if excel.card = deal.card then none else some (excel \ deal, deal \ excel)

/-- Order-preserving deduplication, as the pandas unique method. -/
def pdUnique (l : List String) : List String :=
  l.foldl (fun acc s => if s ∈ acc then acc else acc ++ [s]) []

/-- Duplicate-key check of src/streamlit_app.py line 97: the isins of the
filtered deal rows whose isin occurs more than once, deduplicated in order
of first appearance. -/
def duplicateIsins (deals : List (List String)) : List String :=
  pdUnique ((deals.map isinOf).filter (fun s => 2 ≤ (deals.map isinOf).count s))

/-- Outcome of one run of the try block at src/streamlit_app.py lines
36-146: an enriched output, the explicit empty-merge stop of lines 106-108,
or an exception caught by the blanket handler (either way no output file is
produced in the two latter cases). -/
inductive RunResult where
  | output (summary : List (List Cell)) (details : List EnrichedRow)
  | abortEmptyJoin
  | error
deriving DecidableEq

/-- One full run: parse the deal lines, filter by date, split the report,
locate the two details columns, merge, stop if the merge is empty, enrich,
total, and inject the total into the summary. -/
def run (dealLines : List String) (report : List (List Cell)) (asOf : Nat) : RunResult :=
  let filtered := temporalFilter (parseDealLines dealLines) asOf
  match splitReport report with
  | none => .error
  | some sp =>
    match colIdx sp.header "Security Sedol", colIdx sp.header "Accured Income Net (Base)" with
    | some si, some ai =>
      match leftJoin si filtered sp.details with
      | [] => .abortEmptyJoin
      | m :: ms =>
        let enriched := (m :: ms).map (enrichRow ai)
        match injectTotal sp.summary (npiTotal enriched) with
        | none => .error
        | some s2 => .output s2 enriched
    | _, _ => .error



/-- Modelled from the spec: result of the schema-aware deal parser of spec
section 4.1, which lives in repository variants not present under src/
(src/streamlit_app.py instead hard-codes the column list).  Holds the
reconciled column names and the parsed data rows. -/
structure DealFileParsed where
  columns : List String
  rows : List (List String)
deriving DecidableEq

/-- Modelled from the spec: FormatError raised by the schema-aware parser
when a required structural marker is absent, carrying its message. -/
structure FormatError where
  msg : String
deriving DecidableEq

deriving instance DecidableEq for Except

/-- Whitespace-delimited tokens of a line; only spaces occur in the claims'
inputs. -/
def tokensOf (s : String) : List String :=
  ((splitOnChar ' ' s.toList).filter (fun t => !t.isEmpty)).map List.asString

/-- Modelled from the spec: a standalone line containing only a star opens
or closes the column-definition block, convention b of spec section 4.1. -/
def isStarLine (s : String) : Bool := pyStrip s == "*"

/-- Nonempty all-digit token. -/
def isNatTok (s : String) : Bool := !s.toList.isEmpty && s.toList.all Char.isDigit

/-- Modelled from the spec: a column-definition line inside the starred
block, a hash then ordinal, descriptive name, programmatic name, type code
in D N S T, width and precision, contributes its programmatic name. -/
def colDefName (s : String) : Option String :=
  match tokensOf s with
  | "#" :: rest =>
    match rest.reverse with
    | prec :: width :: ty :: prog :: restRev =>
      match restRev.reverse with
      | ordTok :: desc =>
        if isNatTok ordTok && !desc.isEmpty && isNatTok width && isNatTok prec &&
            (ty == "D" || ty == "N" || ty == "S" || ty == "T") then
          some prog
        else none
      | [] => none
    | _ => none
  | _ => none

/-- Modelled from the spec: field names declared by the starred
column-definition block, in order of appearance; missing when no such block
exists. -/
def schemaNames (lines : List String) : Option (List String) :=
  match findFirst isStarLine lines with
  | none => none
  | some i =>
    match findFirst isStarLine (lines.drop (i + 1)) with
    | none => none
    | some j => some (((lines.drop (i + 1)).take j).filterMap colDefName)

/-- Modelled from the spec: the start-of-data sentinel, SSL followed by one
or more greater-than characters and then SSV or SSL. -/
def isSentinel (s : String) : Bool :=
  match (pyStrip s).toList with
  | 'S' :: 'S' :: 'L' :: rest =>
    let gts := rest.takeWhile (fun c => c == '>')
    let tl := rest.drop gts.length
    !gts.isEmpty && (tl.asString == "SSV" || tl.asString == "SSL")
  | _ => false

/-- Modelled from the spec: a line equal to the end-of-data marker or blank
terminates the data section. -/
def isDataEnd (s : String) : Bool := s == "#EOD" || (pyStrip s).isEmpty

/-- Modelled from the spec: splitting one data line, stripping a single
leading and trailing pipe when both are present, splitting on pipes and
trimming each field. -/
def specSplitRow (s : String) : List String :=
  let l := s.toList
  let core :=
    match l with
    | '|' :: rest => if rest.getLast? = some '|' then rest.dropLast else l
    | _ => l
  (splitOnChar '|' core).map (fun f => (trimChars f).asString)

/-- Modelled from the spec: arity reconciliation of spec section 4.1; with
fewer declared names than the first data row has fields, synthetic Reserved
names are appended; with more, the excess trailing names are dropped. -/
def reconcileArity (declared : List String) (n : Nat) : List String :=
  if declared.length < n then
    declared ++ (List.range (n - declared.length)).map
      (fun k => "Reserved_" ++ toString (declared.length + k + 1))
  else declared.take n

/-- Modelled from the spec: the schema-aware parser contract of spec
section 4.1; parse the lines into a DealFileParsed or fail with a
FormatError naming the missing structural marker. -/
def parseDeal (lines : List String) : Except FormatError DealFileParsed :=
  match schemaNames lines with
  | none => .error ⟨"no header/schema section"⟩
  | some names =>
    match findFirst isSentinel lines with
    | none => .error ⟨"no data-start sentinel"⟩
    | some i =>
      match ((lines.drop (i + 1)).takeWhile (fun l => !isDataEnd l)).map specSplitRow with
      | [] => .error ⟨"no data rows"⟩
      | first :: restRows => .ok ⟨reconcileArity names first.length, first :: restRows⟩

/-- Modelled from the spec: the caller reports a FormatError and aborts the
run, producing no partial output. -/
def runSpec (lines : List String) : Option DealFileParsed :=
  match parseDeal lines with
  | .error _ => none
  | .ok df => some df

/-- Deal row carrying a given ex-date, purification ratio and isin in their
schema positions and filler elsewhere. -/
def mkDealFields (xd ndap isin : String) : List String :=
  (List.range 46).map fun i =>
    if i = xdIdx then xd else if i = ndapIdx then ndap
    else if i = isinIdx then isin else "x"

/-- Pipe-delimited text line for a deal row. -/
def mkDealLine (xd ndap isin : String) : String :=
  "|" ++ String.intercalate "|" (mkDealFields xd ndap isin) ++ "|"

def c1DealLines : List String := [mkDealLine "20250101" "0.05" "ISIN1"]

def c1Report : List (List Cell) :=
  [[Cell.str "Dividends Receivable Report"],
   [Cell.str "Total", Cell.empty, Cell.empty, Cell.num 123],
   [Cell.str detailsMarker],
   [Cell.empty],
   [Cell.str "Security Sedol", Cell.str "Accured Income Net (Base)"],
   [Cell.str "ISIN1", Cell.num 1000]]

def c1OutRow : EnrichedRow :=
  ⟨[Cell.str "ISIN1", Cell.num 1000], some (mkDealFields "20250101" "0.05" "ISIN1"),
    some 1000, 1/20, 50⟩

def c1OutSummary : List (List Cell) :=
  [[Cell.str "Dividends Receivable Report"],
   [Cell.str "Total", Cell.empty, Cell.empty, Cell.num 123],
   totalRow 50,
   [Cell.str detailsMarker],
   [Cell.empty]]

def c2Row : List Cell := [Cell.str "B", Cell.empty]

def c2Details : List (List Cell) := [c2Row]

def c2Deals : List (List String) := [mkDealFields "20250101" "0.5" "A"]

def c3DealLines : List String := [mkDealLine "20250101" "0.5" "A"]

def c3Report : List (List Cell) :=
  [[Cell.str "Portfolio"],
   [Cell.str "Total", Cell.empty, Cell.empty, Cell.num 9],
   [Cell.str detailsMarker],
   [Cell.empty],
   [Cell.str "Security Sedol", Cell.str "Accured Income Net (Base)"],
   [Cell.str "B", Cell.num 7]]

def c3OutRow : EnrichedRow := ⟨[Cell.str "B", Cell.num 7], none, some 7, 0, 0⟩

def c3OutSummary : List (List Cell) :=
  [[Cell.str "Portfolio"],
   [Cell.str "Total", Cell.empty, Cell.empty, Cell.num 9],
   totalRow 0,
   [Cell.str detailsMarker],
   [Cell.empty]]

def c4Summary : List (List Cell) :=
  [[Cell.str "head"], [Cell.str "Total", Cell.num 5], [Cell.str "tail"]]

def c5Details : List (List Cell) := [[Cell.str "A", Cell.num 10]]

def c5Deals : List (List String) :=
  [mkDealFields "20250101" "0.1" "A", mkDealFields "20250102" "0.2" "A"]

def c6Lines : List String :=
  ["*", "# 1 CalcDate calc_date D 8 0", "# 2 Isin isin S 12 0", "*", "SSL>>SSV",
   "|a|b|", "|c|d|"]

def c6Df : DealFileParsed := ⟨["calc_date", "isin"], [["a", "b"], ["c", "d"]]⟩

def c7NoSchema : List String := ["hello", "SSL>SSV", "|a|b|"]

def c7NoSentinel : List String := ["*", "# 1 CalcDate calc_date D 8 0", "*", "|a|b|"]

def c7NoData : List String := ["*", "# 1 CalcDate calc_date D 8 0", "*", "SSL>SSV"]

def c8DealLines : List String :=
  [mkDealLine "20250101" "0.1" "A", mkDealLine "20250102" "0.2" "A",
   mkDealLine "20250103" "0.3" "B"]

def c8Details : List (List Cell) :=
  [[Cell.str "A", Cell.num 10], [Cell.str "B", Cell.num 20], [Cell.str "C", Cell.num 30]]

def c8Report : List (List Cell) :=
  [[Cell.str "Portfolio"],
   [Cell.str "Total", Cell.empty, Cell.empty, Cell.num 9],
   [Cell.str detailsMarker],
   [Cell.empty],
   [Cell.str "Security Sedol", Cell.str "Accured Income Net (Base)"]] ++ c8Details

def c8Filtered : List (List String) :=
  temporalFilter (parseDealLines c8DealLines) 20251012

def c8OutRows : List EnrichedRow :=
  [⟨[Cell.str "A", Cell.num 10], some (mkDealFields "20250101" "0.1" "A"), some 10, 1/10, 1⟩,
   ⟨[Cell.str "A", Cell.num 10], some (mkDealFields "20250102" "0.2" "A"), some 10, 1/5, 2⟩,
   ⟨[Cell.str "B", Cell.num 20], some (mkDealFields "20250103" "0.3" "B"), some 20, 3/10, 6⟩,
   ⟨[Cell.str "C", Cell.num 30], none, some 30, 0, 0⟩]

def c8OutSummary : List (List Cell) :=
  [[Cell.str "Portfolio"],
   [Cell.str "Total", Cell.empty, Cell.empty, Cell.num 9],
   totalRow 9,
   [Cell.str detailsMarker],
   [Cell.empty]]

def c9BadRow : List String := mkDealFields "notadate" "0.1" "A"

def c10DealLines : List String := [mkDealLine "20250101" "0.9" "Z"]

def c10Report : List (List Cell) :=
  [[Cell.str "Total"],
   [Cell.str detailsMarker],
   [Cell.empty],
   [Cell.str "Security Sedol", Cell.str "Accured Income Net (Base)"],
   [Cell.str "Y", Cell.num 4]]

def c10Split : SplitReport :=
  ⟨[[Cell.str "Total"], [Cell.str detailsMarker], [Cell.empty]],
   [Cell.str "Security Sedol", Cell.str "Accured Income Net (Base)"],
   [[Cell.str "Y", Cell.num 4]]⟩

/-- Modelled arity reconciliation always produces exactly as many column
names as the first data row has fields. -/
theorem reconcileArity_length (declared : List String) (n : Nat) :
    (reconcileArity declared n).length = n := by
  rw [reconcileArity]
  by_cases h : declared.length < n <;> simp [h] <;> omega

/-- Characterisation of findFirst: it returns the first index whose element
satisfies the predicate. -/
theorem findFirst_eq_some_of {α : Type} (p : α → Bool) (d : α) :
    ∀ (l : List α) (i : Nat), i < l.length → p (l.getD i d) = true →
      (∀ j, j < i → p (l.getD j d) = false) → findFirst p l = some i
  | [], i, hi, _, _ => absurd hi (by simp)
  | a :: t, 0, _, hp, _ => by
    simp only [List.getD_cons_zero] at hp
    simp [findFirst, hp]
  | a :: t, i + 1, hi, hp, hfirst => by
    have ha : p a = false := by
      have := hfirst 0 (Nat.succ_pos i)
      simpa using this
    have ht : findFirst p t = some i :=
      findFirst_eq_some_of p d t i (by simpa using hi) (by simpa using hp)
        (fun j hj => by simpa using hfirst (j + 1) (by omega))
    simp [findFirst, ha, ht]

/-- Membership in the per-row block of the left merge. -/
theorem mem_joinRow_iff (si : Nat) (deals : List (List String)) (row : List Cell)
    (m : MergedRow) :
    m ∈ joinRow si deals row ↔
      (matchesFor si deals row = [] ∧ m = ⟨row, none⟩) ∨
      (∃ d ∈ matchesFor si deals row, m = ⟨row, some d⟩) := by
  rcases hm : matchesFor si deals row with _ | ⟨d0, ds⟩ <;>
      simp [joinRow, hm, eq_comm]
  constructor
  · rintro (rfl | ⟨d, hd, rfl⟩)
    · exact ⟨d0, Or.inl rfl, rfl⟩
    · exact ⟨d, Or.inr hd, rfl⟩
  · rintro ⟨d, rfl | hd, rfl⟩
    · exact Or.inl rfl
    · exact Or.inr ⟨d, hd, rfl⟩

/-- Every details row contributes at least one output row. -/
theorem joinRow_ne_nil (si : Nat) (deals : List (List String)) (row : List Cell) :
    joinRow si deals row ≠ [] := by
  rcases hm : matchesFor si deals row with _ | ⟨d0, ds⟩ <;> simp [joinRow, hm]

/-- Size of the per-row block: one output row per match, or one for an
unmatched row. -/
theorem joinRow_length (si : Nat) (deals : List (List String)) (row : List Cell) :
    (joinRow si deals row).length = max (matchesFor si deals row).length 1 := by
  rcases hm : matchesFor si deals row with _ | ⟨d0, ds⟩ <;> simp [joinRow, hm]

/-- The left merge is empty exactly when the details block is empty. -/
theorem leftJoin_eq_nil_iff (si : Nat) (deals : List (List String)) :
    ∀ details : List (List Cell), leftJoin si deals details = [] ↔ details = []
  | [] => by simp [leftJoin]
  | row :: rest => by
    simp [leftJoin, joinRow_ne_nil]

/-- Membership in the left merge factors through the contributing details
row. -/
theorem mem_leftJoin_iff (si : Nat) (deals : List (List String)) :
    ∀ (details : List (List Cell)) (m : MergedRow),
      m ∈ leftJoin si deals details ↔
        ∃ row ∈ details, m ∈ joinRow si deals row
  | [], m => by simp [leftJoin]
  | row :: rest, m => by
    simp [leftJoin, mem_leftJoin_iff si deals rest m]

/-- Size of the left merge. -/
theorem leftJoin_length (si : Nat) (deals : List (List String)) :
    ∀ details : List (List Cell),
      (leftJoin si deals details).length =
        (details.map (fun row => max (matchesFor si deals row).length 1)).sum
  | [] => by simp [leftJoin]
  | row :: rest => by
    simp [leftJoin, joinRow_length, leftJoin_length si deals rest]

/-- Rows whose value is forced to zero can be dropped from a sum. -/
theorem sum_map_filter_isSome (f : EnrichedRow → ℚ) :
    ∀ l : List EnrichedRow, (∀ e ∈ l, e.deal = none → f e = 0) →
      ((l.filter (fun e => e.deal.isSome)).map f).sum = (l.map f).sum
  | [], _ => rfl
  | e :: t, h => by
    have ht := sum_map_filter_isSome f t (fun x hx => h x (List.mem_cons_of_mem e hx))
    rcases hd : e.deal with _ | d
    · have h0 : f e = 0 := h e (List.mem_cons_self e t) hd
      simp [List.filter_cons, hd, ht, h0]
    · simp [List.filter_cons, hd, ht]

/-- Enriching an unmatched merged row fills both the ratio and the product
with zero. -/
theorem enrichRow_of_deal_none (ai : Nat) (m : MergedRow) (h : m.deal = none) :
    (enrichRow ai m).npiBase = 0 ∧ (enrichRow ai m).ndap = 0 := by
  simp [enrichRow, h, coerceNdap, npiRaw]

/-- C1: for a deal file with one record of identifier ISIN1 and ratio 0.05
and a report whose Details block has one row with Security Sedol ISIN1 and
Accured Income Net (Base) 1000, the enriched row has NPI Base 50 and the
injected Total NPI summary row carries 50 in its value cell. -/
theorem c1_scenario_npi :
    run c1DealLines c1Report 20251012 = .output c1OutSummary [c1OutRow] ∧
    c1OutRow.npiBase = 50 ∧
    cell0 (c1OutSummary.getD 2 []) = Cell.str "Total NPI" ∧
    (c1OutSummary.getD 2 []).getD 3 Cell.empty = Cell.num 50 := by
  have hparse : parseDealLines c1DealLines = [mkDealFields "20250101" "0.05" "ISIN1"] := by
    decide
  have hfilter : temporalFilter [mkDealFields "20250101" "0.05" "ISIN1"] 20251012 =
      [mkDealFields "20250101" "0.05" "ISIN1"] := by decide
  have hsplit : splitReport c1Report =
      some ⟨[[Cell.str "Dividends Receivable Report"],
             [Cell.str "Total", Cell.empty, Cell.empty, Cell.num 123],
             [Cell.str detailsMarker], [Cell.empty]],
            [Cell.str "Security Sedol", Cell.str "Accured Income Net (Base)"],
            [[Cell.str "ISIN1", Cell.num 1000]]⟩ := by decide
  have hjoin : leftJoin 0 [mkDealFields "20250101" "0.05" "ISIN1"]
      [[Cell.str "ISIN1", Cell.num 1000]] =
      [⟨[Cell.str "ISIN1", Cell.num 1000], some (mkDealFields "20250101" "0.05" "ISIN1")⟩] := by
    decide
  have hndap : ndapOf (mkDealFields "20250101" "0.05" "ISIN1") = "0.05" := by decide
  have hrat : parseRat "0.05" = some (1/20) := by
    have h1 : digitsToNat ['0'] = 0 := by decide
    have h2 : digitsToNat ['0', '5'] = 5 := by decide
    simp +decide [parseRat, trimChars, parseUnsignedRat, splitOnChar, h1, h2]
    norm_num
  refine ⟨?_, rfl, rfl, rfl⟩
  simp +decide [run, hparse, hfilter, hsplit, hjoin, enrichRow, hndap, hrat, coerceNdap,
    coerceCell, npiRaw, npiTotal, injectTotal, totalAnchor, findFirst, cell0,
    c1OutSummary, c1OutRow, totalRow, colIdx, detailsMarker]
  norm_num

/-- C2 counterexample: a Details row with no matching identifier whose
accrued-income cell is missing keeps a missing accrued-income value in the
enriched output; the field is not defaulted to zero, refuting the part of
the claim that says both multiplicand fields are defaulted to 0 wherever
missing (src/streamlit_app.py lines 115-116 fill only the ratio and the
product). -/
theorem c2_counterexample_accrued :
    (enrichDetails 0 1 c2Deals c2Details).map (fun e => (e.deal, e.accrued)) =
      [(none, none)] ∧
    (enrichDetails 0 1 c2Deals c2Details).map (fun e => e.npiBase) = [0] := by
  constructor <;> decide

/-- C2 amended: every Details row is still present in the enriched output;
an unmatched row has NPI Base 0 and ratio 0; rows with a missing deal side
contribute nothing to the grand total.  The accrued-income field itself is
left missing, not defaulted. -/
theorem c2_amended_default_zero (si ai : Nat) (deals : List (List String))
    (details : List (List Cell)) :
    (∀ row ∈ details, ∃ e ∈ enrichDetails si ai deals details, e.row = row) ∧
    (∀ e ∈ enrichDetails si ai deals details,
        e.deal = none → e.npiBase = 0 ∧ e.ndap = 0) ∧
    npiTotal (enrichDetails si ai deals details) =
      npiTotal ((enrichDetails si ai deals details).filter (fun e => e.deal.isSome)) := by
  refine ⟨?_, ?_, ?_⟩
  · intro row hrow
    rcases hm : matchesFor si deals row with _ | ⟨d0, ds⟩
    · refine ⟨enrichRow ai ⟨row, none⟩, ?_, rfl⟩
      exact List.mem_map_of_mem _ ((mem_leftJoin_iff si deals details _).2
        ⟨row, hrow, (mem_joinRow_iff si deals row _).2 (Or.inl ⟨hm, rfl⟩)⟩)
    · refine ⟨enrichRow ai ⟨row, some d0⟩, ?_, rfl⟩
      exact List.mem_map_of_mem _ ((mem_leftJoin_iff si deals details _).2
        ⟨row, hrow, (mem_joinRow_iff si deals row _).2
          (Or.inr ⟨d0, by rw [hm]; exact List.mem_cons_self d0 ds, rfl⟩)⟩)
  · intro e he hdeal
    obtain ⟨m, hm, rfl⟩ := List.mem_map.1 he
    exact enrichRow_of_deal_none ai m hdeal
  · rw [npiTotal, npiTotal,
      sum_map_filter_isSome (fun e => e.npiBase) (enrichDetails si ai deals details)]
    intro e he hdeal
    obtain ⟨m, hm, rfl⟩ := List.mem_map.1 he
    exact (enrichRow_of_deal_none ai m hdeal).1

/-- C2 witness: on a concrete unmatched row the amended theorem yields an
enriched row with NPI Base 0 and ratio 0. -/
theorem c2_amended_default_zero_witness :
    ∃ e ∈ enrichDetails 0 1 c2Deals c2Details, e.npiBase = 0 ∧ e.ndap = 0 :=
  ⟨enrichRow 1 ⟨c2Row, none⟩, by decide,
    (c2_amended_default_zero 0 1 c2Deals c2Details).2.1 _ (by decide) rfl⟩

/-- C3: with disjoint identifier sets but a non-empty Details block the run
does not stop; the left merge is non-empty, the empty-merge check of
src/streamlit_app.py lines 106-108 does not fire, and an output with
NPI Base 0 is produced, contradicting the claimed abort. -/
theorem c3_disjoint_no_abort :
    run c3DealLines c3Report 20251012 = .output c3OutSummary [c3OutRow] ∧
    run c3DealLines c3Report 20251012 ≠ .abortEmptyJoin ∧
    c3OutRow.npiBase = 0 := by
  have hparse : parseDealLines c3DealLines = [mkDealFields "20250101" "0.5" "A"] := by decide
  have hfilter : temporalFilter [mkDealFields "20250101" "0.5" "A"] 20251012 =
      [mkDealFields "20250101" "0.5" "A"] := by decide
  have hsplit : splitReport c3Report =
      some ⟨[[Cell.str "Portfolio"],
             [Cell.str "Total", Cell.empty, Cell.empty, Cell.num 9],
             [Cell.str detailsMarker], [Cell.empty]],
            [Cell.str "Security Sedol", Cell.str "Accured Income Net (Base)"],
            [[Cell.str "B", Cell.num 7]]⟩ := by decide
  have hjoin : leftJoin 0 [mkDealFields "20250101" "0.5" "A"] [[Cell.str "B", Cell.num 7]] =
      [⟨[Cell.str "B", Cell.num 7], none⟩] := by decide
  have hrun : run c3DealLines c3Report 20251012 = .output c3OutSummary [c3OutRow] := by
    simp +decide [run, hparse, hfilter, hsplit, hjoin, enrichRow, coerceNdap,
      coerceCell, npiRaw, npiTotal, injectTotal, totalAnchor, findFirst, cell0,
      c3OutSummary, c3OutRow, totalRow, colIdx, detailsMarker]
  exact ⟨hrun, by rw [hrun]; simp, rfl⟩

/-- C4: total injection inserts exactly one new row immediately after the
first summary row whose first cell is the literal string Total; the new row
has first cell Total NPI and carries the total in cell 3; all rows up to and
including the anchor are unchanged and all later rows shift down by one. -/
theorem c4_total_injection (summary : List (List Cell)) (t : ℚ) (i : Nat)
    (hi : i < summary.length)
    (hanchor : cell0 (summary.getD i []) = Cell.str "Total")
    (hfirst : ∀ j, j < i → cell0 (summary.getD j []) ≠ Cell.str "Total") :
    injectTotal summary t =
        some (summary.take (i + 1) ++ totalRow t :: summary.drop (i + 1)) ∧
    (summary.take (i + 1) ++ totalRow t :: summary.drop (i + 1)).length =
        summary.length + 1 ∧
    (summary.take (i + 1) ++ totalRow t :: summary.drop (i + 1)).getD (i + 1) [] =
        totalRow t ∧
    cell0 (totalRow t) = Cell.str "Total NPI" ∧
    (totalRow t).getD 3 Cell.empty = Cell.num t ∧
    (∀ j, j ≤ i →
      (summary.take (i + 1) ++ totalRow t :: summary.drop (i + 1)).getD j [] =
        summary.getD j []) ∧
    (∀ j, i < j → j < summary.length →
      (summary.take (i + 1) ++ totalRow t :: summary.drop (i + 1)).getD (j + 1) [] =
        summary.getD j []) := by
  have htake : (summary.take (i + 1)).length = i + 1 := by
    simp [List.length_take]
    omega
  have hfind : totalAnchor summary = some i := by
    apply findFirst_eq_some_of _ [] summary i hi
    · simp only [decide_eq_true_eq]
      exact hanchor
    · intro j hj
      simp only [decide_eq_false_iff_not]
      exact hfirst j hj
  refine ⟨by simp [injectTotal, hfind], ?_, ?_, rfl, rfl, ?_, ?_⟩
  · simp [List.length_take, List.length_drop]
    omega
  · rw [List.getD_eq_getElem?_getD, List.getElem?_append_right (by omega), htake]
    simp
  · intro j hj
    rw [List.getD_eq_getElem?_getD, List.getElem?_append_left (by omega),
      List.getElem?_take_of_lt (by omega), ← List.getD_eq_getElem?_getD]
  · intro j hji hjl
    rw [List.getD_eq_getElem?_getD, List.getElem?_append_right (by omega), htake]
    have hidx : j + 1 - (i + 1) = (j - i - 1) + 1 := by omega
    rw [hidx, List.getElem?_cons_succ, List.getElem?_drop]
    have hidx2 : i + 1 + (j - i - 1) = j := by omega
    rw [hidx2, ← List.getD_eq_getElem?_getD]

/-- C4 witness: injection on a concrete three-row summary with the anchor in
the middle. -/
theorem c4_total_injection_witness :
    injectTotal c4Summary 7 = some (c4Summary.take 2 ++ totalRow 7 :: c4Summary.drop 2) :=
  (c4_total_injection c4Summary 7 1 (by decide) (by decide) (by decide)).1

/-- C5 counterexample: one Details row whose identifier occurs twice in the
deal file yields two output rows in the left merge, refuting the claim that
every Details row yields exactly one output row. -/
theorem c5_counterexample_duplicates :
    c5Details.length = 1 ∧ (leftJoin 0 c5Deals c5Details).length = 2 := by
  constructor <;> decide

/-- C5 amended: the merge is a left join preserving every Details row; an
unmatched row yields exactly one output row with a missing deal side, and a
row matched by k deal rows yields k output rows, one per duplicate, so the
output size is the sum over Details rows of max(matches, 1). -/
theorem c5_left_join (si : Nat) (deals : List (List String))
    (details : List (List Cell)) :
    (∀ row ∈ details, ∃ m ∈ leftJoin si deals details, m.row = row) ∧
    (∀ m ∈ leftJoin si deals details,
        (m.deal = none ∧ matchesFor si deals m.row = []) ∨
        (∃ d ∈ matchesFor si deals m.row, m.deal = some d)) ∧
    (leftJoin si deals details).length =
      (details.map (fun row => max (matchesFor si deals row).length 1)).sum := by
  refine ⟨?_, ?_, leftJoin_length si deals details⟩
  · intro row hrow
    rcases hm : matchesFor si deals row with _ | ⟨d0, ds⟩
    · exact ⟨⟨row, none⟩, (mem_leftJoin_iff si deals details _).2
        ⟨row, hrow, (mem_joinRow_iff si deals row _).2 (Or.inl ⟨hm, rfl⟩)⟩, rfl⟩
    · exact ⟨⟨row, some d0⟩, (mem_leftJoin_iff si deals details _).2
        ⟨row, hrow, (mem_joinRow_iff si deals row _).2
          (Or.inr ⟨d0, by rw [hm]; exact List.mem_cons_self d0 ds, rfl⟩)⟩, rfl⟩
  · intro m hm
    obtain ⟨row, hrow, hblock⟩ := (mem_leftJoin_iff si deals details m).1 hm
    rcases (mem_joinRow_iff si deals row m).1 hblock with ⟨hnil, rfl⟩ | ⟨d, hd, rfl⟩
    · exact Or.inl ⟨rfl, hnil⟩
    · exact Or.inr ⟨d, hd, rfl⟩

/-- C5 witness: the duplicated-identifier Details row is preserved by the
merge. -/
theorem c5_left_join_witness :
    ∃ m ∈ leftJoin 0 c5Deals c5Details, m.row = [Cell.str "A", Cell.num 10] :=
  (c5_left_join 0 c5Deals c5Details).1 [Cell.str "A", Cell.num 10] (by decide)

/-- C6: after the spec-modelled arity reconciliation, every parsed row of a
well-formed input (all rows sharing the first row's field count, as the
spec assumes) has exactly as many fields as there are reconciled column
definitions. -/
theorem c6_arity_reconciliation (lines : List String) (df : DealFileParsed)
    (h : parseDeal lines = .ok df)
    (hu : ∀ r ∈ df.rows, r.length = df.rows.headI.length) :
    ∀ r ∈ df.rows, r.length = df.columns.length := by
  rw [parseDeal] at h
  split at h
  · exact absurd h (by simp)
  split at h
  · exact absurd h (by simp)
  split at h
  · exact absurd h (by simp)
  rename_i first restRows hd
  have h2 := Except.ok.inj h
  subst h2
  intro r hr
  rw [hu r hr]
  simp [reconcileArity_length]

/-- C6 witness: a concrete two-column two-row input parses and satisfies the
row-width property. -/
theorem c6_arity_reconciliation_witness :
    parseDeal c6Lines = .ok c6Df ∧ ∀ r ∈ c6Df.rows, r.length = c6Df.columns.length :=
  ⟨by decide, c6_arity_reconciliation c6Lines c6Df (by decide) (by decide)⟩

/-- C7: the spec-modelled parser fails with the three documented
FormatError messages when the respective structural marker is missing, and
any parse failure aborts the run with no partial output. -/
theorem c7_format_errors :
    parseDeal c7NoSchema = .error ⟨"no header/schema section"⟩ ∧
    parseDeal c7NoSentinel = .error ⟨"no data-start sentinel"⟩ ∧
    parseDeal c7NoData = .error ⟨"no data rows"⟩ ∧
    ∀ (lines : List String) (e : FormatError),
      parseDeal lines = .error e → runSpec lines = none := by
  refine ⟨by decide, by decide, by decide, fun lines e he => ?_⟩
  rw [runSpec, he]

/-- C7 witness: the schema-less input aborts with no output. -/
theorem c7_format_errors_witness : runSpec c7NoSchema = none :=
  c7_format_errors.2.2.2 c7NoSchema ⟨"no header/schema section"⟩ c7_format_errors.1

/-- C9: the temporal filter keeps exactly the deal rows whose ex-dividend
date parses in YYYYMMDD form to a date on or before the as-of date; a row
whose date fails to parse is excluded rather than fatal. -/
theorem c9_temporal_filter (rows : List (List String)) (asOf : Nat) (r : List String) :
    (r ∈ temporalFilter rows asOf ↔
      r ∈ rows ∧ ∃ d, parseYYYYMMDD (xdOf r) = some d ∧ d ≤ asOf) ∧
    (parseYYYYMMDD (xdOf r) = none → r ∉ temporalFilter rows asOf) := by
  have hmem : r ∈ temporalFilter rows asOf ↔
      r ∈ rows ∧ ∃ d, parseYYYYMMDD (xdOf r) = some d ∧ d ≤ asOf := by
    rw [temporalFilter, List.mem_filter]
    rcases hp : parseYYYYMMDD (xdOf r) with _ | d <;> simp [hp]
  refine ⟨hmem, fun hnone hr => ?_⟩
  obtain ⟨-, d, hd, -⟩ := hmem.1 hr
  rw [hnone] at hd
  exact Option.noConfusion hd

/-- C9 witness: a concrete row with an unparsable date is excluded. -/
theorem c9_temporal_filter_witness :
    parseYYYYMMDD (xdOf c9BadRow) = none ∧ c9BadRow ∉ temporalFilter [c9BadRow] 20251012 :=
  ⟨by decide, (c9_temporal_filter [c9BadRow] 20251012 c9BadRow).2 (by decide)⟩

/-- C10: the abort condition tests emptiness of the left merge, which is
empty exactly when the Details block is empty; with disjoint identifier
sets and a non-empty Details block the run therefore produces an output in
which every NPI Base value is 0. -/
theorem c10_abort_iff_empty_details (dealLines : List String)
    (report : List (List Cell)) (asOf : Nat) (sp : SplitReport) (si ai : Nat)
    (hsp : splitReport report = some sp)
    (hsi : colIdx sp.header "Security Sedol" = some si)
    (hai : colIdx sp.header "Accured Income Net (Base)" = some ai)
    (hanchor : (totalAnchor sp.summary).isSome = true)
    (hne : sp.details ≠ [])
    (hdisj : ∀ row ∈ sp.details,
        keyOf si row ∉ (temporalFilter (parseDealLines dealLines) asOf).map isinOf) :
    (∀ (deals : List (List String)) (details2 : List (List Cell)),
        leftJoin si deals details2 = [] ↔ details2 = []) ∧
    ∃ s d, run dealLines report asOf = .output s d ∧ d ≠ [] ∧
      ∀ e ∈ d, e.npiBase = 0 := by
  refine ⟨fun deals details2 => leftJoin_eq_nil_iff si deals details2, ?_⟩
  have hmatches : ∀ row ∈ sp.details,
      matchesFor si (temporalFilter (parseDealLines dealLines) asOf) row = [] := by
    intro row hrow
    rw [matchesFor, List.filter_eq_nil_iff]
    intro d hd hbeq
    exact hdisj row hrow (List.mem_map.2 ⟨d, hd, by simpa using hbeq⟩)
  rcases hj : leftJoin si (temporalFilter (parseDealLines dealLines) asOf) sp.details
    with _ | ⟨m, ms⟩
  · exact absurd ((leftJoin_eq_nil_iff si _ sp.details).1 hj) hne
  obtain ⟨ia, hia⟩ := Option.isSome_iff_exists.1 hanchor
  refine ⟨sp.summary.take (ia + 1) ++
      totalRow (npiTotal ((m :: ms).map (enrichRow ai))) :: sp.summary.drop (ia + 1),
    (m :: ms).map (enrichRow ai), ?_, by simp, ?_⟩
  · rw [run]
    simp only [hsp, hsi, hai, hj, injectTotal, hia]
  · intro e he
    obtain ⟨mr, hmr, rfl⟩ := List.mem_map.1 he
    rw [← hj] at hmr
    obtain ⟨row, hrow, hblock⟩ := (mem_leftJoin_iff si _ sp.details mr).1 hmr
    rcases (mem_joinRow_iff si _ row mr).1 hblock with ⟨-, rfl⟩ | ⟨d, hd, -⟩
    · exact (enrichRow_of_deal_none ai _ rfl).1
    · rw [hmatches row hrow] at hd
      exact absurd hd (List.not_mem_nil d)

/-- C10 witness: a concrete disjoint pair with a one-row Details block does
not abort and outputs a zero NPI Base row. -/
theorem c10_abort_iff_empty_details_witness :
    ∃ s d, run c10DealLines c10Report 20251012 = .output s d ∧ d ≠ [] ∧
      ∀ e ∈ d, e.npiBase = 0 :=
  (c10_abort_iff_empty_details c10DealLines c10Report 20251012 c10Split 0 1
    (by decide) (by decide) (by decide) (by decide) (by decide) (by decide)).2

/-- C8: the key-coverage check warns exactly when the two distinct-identifier
counts differ, reporting the one-sided set differences, and never aborts; on
the deal file with identifiers A, A, B and the report with identifiers
A, B, C it reports C as Excel-only and nothing as text-only, the duplicate
warning names exactly A, and the run still produces an output. -/
theorem c8_coverage_check :
    (∀ e d : Finset String, (coverageWarning e d).isSome ↔ e.card ≠ d.card) ∧
    (∀ e d : Finset String,
        coverageWarning e d = none ∨ coverageWarning e d = some (e \ d, d \ e)) ∧
    coverageWarning (excelSecurities 0 c8Details) (dealSecurities c8Filtered) =
      some ({"C"}, ∅) ∧
    duplicateIsins c8Filtered = ["A"] ∧
    run c8DealLines c8Report 20251012 = .output c8OutSummary c8OutRows := by
  have hparse : parseDealLines c8DealLines =
      [mkDealFields "20250101" "0.1" "A", mkDealFields "20250102" "0.2" "A",
       mkDealFields "20250103" "0.3" "B"] := by decide
  have hfilter : temporalFilter
      [mkDealFields "20250101" "0.1" "A", mkDealFields "20250102" "0.2" "A",
       mkDealFields "20250103" "0.3" "B"] 20251012 =
      [mkDealFields "20250101" "0.1" "A", mkDealFields "20250102" "0.2" "A",
       mkDealFields "20250103" "0.3" "B"] := by decide
  have hsplit : splitReport c8Report =
      some ⟨[[Cell.str "Portfolio"],
             [Cell.str "Total", Cell.empty, Cell.empty, Cell.num 9],
             [Cell.str detailsMarker], [Cell.empty]],
            [Cell.str "Security Sedol", Cell.str "Accured Income Net (Base)"],
            [[Cell.str "A", Cell.num 10], [Cell.str "B", Cell.num 20],
             [Cell.str "C", Cell.num 30]]⟩ := by decide
  have hjoin : leftJoin 0
      [mkDealFields "20250101" "0.1" "A", mkDealFields "20250102" "0.2" "A",
       mkDealFields "20250103" "0.3" "B"]
      [[Cell.str "A", Cell.num 10], [Cell.str "B", Cell.num 20],
       [Cell.str "C", Cell.num 30]] =
      [⟨[Cell.str "A", Cell.num 10], some (mkDealFields "20250101" "0.1" "A")⟩,
       ⟨[Cell.str "A", Cell.num 10], some (mkDealFields "20250102" "0.2" "A")⟩,
       ⟨[Cell.str "B", Cell.num 20], some (mkDealFields "20250103" "0.3" "B")⟩,
       ⟨[Cell.str "C", Cell.num 30], none⟩] := by decide
  have hn1 : ndapOf (mkDealFields "20250101" "0.1" "A") = "0.1" := by decide
  have hn2 : ndapOf (mkDealFields "20250102" "0.2" "A") = "0.2" := by decide
  have hn3 : ndapOf (mkDealFields "20250103" "0.3" "B") = "0.3" := by decide
  have hd0 : digitsToNat ['0'] = 0 := by decide
  have hd1 : digitsToNat ['1'] = 1 := by decide
  have hd2 : digitsToNat ['2'] = 2 := by decide
  have hd3 : digitsToNat ['3'] = 3 := by decide
  have hr1 : parseRat "0.1" = some (1/10) := by
    simp +decide [parseRat, trimChars, parseUnsignedRat, splitOnChar, hd0, hd1]
    try norm_num
  have hr2 : parseRat "0.2" = some (1/5) := by
    simp +decide [parseRat, trimChars, parseUnsignedRat, splitOnChar, hd0, hd2]
    try norm_num
  have hr3 : parseRat "0.3" = some (3/10) := by
    simp +decide [parseRat, trimChars, parseUnsignedRat, splitOnChar, hd0, hd3]
    try norm_num
  refine ⟨?_, ?_, by decide, by decide, ?_⟩
  · intro e d
    by_cases h : e.card = d.card <;> simp [coverageWarning, h]
  · intro e d
    by_cases h : e.card = d.card <;> simp [coverageWarning, h]
  · simp +decide [run, hparse, hfilter, hsplit, hjoin, enrichRow, hn1, hn2, hn3,
      hr1, hr2, hr3, coerceNdap, coerceCell, npiRaw, npiTotal, injectTotal,
      totalAnchor, findFirst, cell0, c8OutSummary, c8OutRows, totalRow, colIdx,
      detailsMarker]
    norm_num

end NPI
